import Mathlib

/-!
Shallow embedding of the webSocket transport
(`src/clients/transports/webSocket.ts`): the `request` facade and the
`subscribe`/`unsubscribe` subscription state machine, together with
theorems checking the specification's claims about them.

The subscription logic in the source is a closure over five mutable
variables (`active`, `subscriptionSocket`, `subscriptionId`,
`unsubscribeSocket`, and the promise awaited by `subscribe`).  We embed
that closure state as `SubRecord`, the collaborating environment
(which sockets are open) as `World`, and the event-driven control flow
as a `step` function over environment events, which returns the updated
state together with the list of observable outputs produced by the
handler run (messages written to a socket, `onData`/`onError` callback
invocations, and the settlement behaviour of the promise returned by
`cleanup`).
-/

namespace WebSocketTransport

/-- A JSON-RPC error object `{code, message}`. -/
structure RpcError where
  code : Int
  message : String
deriving DecidableEq

/-- An inbound JSON-RPC frame as inspected by the source's `onResponse`
handler: it reads `response.error`, `response.id` (checking
`typeof response.id === 'number'`), `response.result` (stored into
`subscriptionId`, a hash string), `response.method` and
`response.params`.  Absent fields are `none`. -/
structure RpcResponse where
  id : Option Nat := none
  error : Option RpcError := none
  result : Option String := none
  method : Option String := none
  params : Option String := none
deriving DecidableEq

/-- State of a JS promise: `pending`, `resolved` with the response it was
resolved with, or `rejected` with an error. -/
inductive PState
  | pending
  | resolved (r : RpcResponse)
  | rejected (e : RpcError)
deriving DecidableEq

/-- Calling `resolve(r)` settles the promise only if it is still pending. -/
def resolveP (p : PState) (r : RpcResponse) : PState :=
  match p with
  | PState.pending => PState.resolved r
  | _ => p

/-- Calling `reject(e)` settles the promise only if it is still pending. -/
def rejectP (p : PState) (e : RpcError) : PState :=
  match p with
  | PState.pending => PState.rejected e
  | _ => p

/-- Body of an outbound JSON-RPC message written by the subscription
logic: the `eth_subscribe` open-call (with the consumer's params) or the
`eth_unsubscribe` teardown (with `params: [subscriptionId]`). -/
inductive MsgBody
  | subscribeCall (params : String)
  | unsubscribeCall (subId : String)
deriving DecidableEq

/-- Settlement behaviour of the promise built inside `cleanup`: in the
source the executor `return`s without invoking `resolve` when any guard
fires (`subscriptionId === undefined`, `subscriptionSocket === undefined`,
or `readyState !== OPEN`), so that promise never settles (`never`);
otherwise `resolve` is installed as the `onResponse` of the
`eth_unsubscribe` call, so the promise settles when that response
arrives (`awaitResponse`). -/
inductive CleanupKind
  | never
  | awaitResponse
deriving DecidableEq

/-- Observable outputs of one handler run. -/
inductive Out
  | msg (sock : Nat) (body : MsgBody)
  | onData (payload : Option String)
  | onError (e : RpcError)
  | unsubscribeReturn (k : CleanupKind)
deriving DecidableEq

/-- The closure state of one `subscribe({params, onData, onError})` call:
`params` is the (immutable) subscription parameter; `active`,
`subscriptionSocket`, `subscriptionId` and `unsubscribeSocket` are the
source's mutable variables (`unsubscribeSocket` records whether the
unregister callback has been delivered by `subscribeSocket`);
`registered` tracks whether `onSocketCreated` is still registered with
the socket registry; `openPromise` is the promise awaited by
`subscribe` before it returns the handle. -/
structure SubRecord where
  params : String
  active : Bool
  subscriptionSocket : Option Nat
  subscriptionId : Option String
  unsubscribeSocket : Bool
  registered : Bool
  openPromise : PState
deriving DecidableEq

/-- Result of running `cleanup`: updated closure state, messages written,
and the settlement behaviour of the promise `cleanup` returns. -/
structure CleanupResult where
  state : SubRecord
  outs : List Out
  promise : CleanupKind
deriving DecidableEq

/-- The optional call `unsubscribeSocket?.()` at the top of `cleanup`:
when the unregister callback has been delivered, it removes the
`onSocketCreated` listener from the socket registry; otherwise it does
nothing. -/
def unregisterIfPresent (s : SubRecord) : SubRecord :=
  if s.unsubscribeSocket then { s with registered := false } else s

/-- The source's `cleanup`: calls `unsubscribeSocket?.()` (unregistering
the socket-creation listener when the callback is present), then builds a
promise whose executor returns early, without resolving, unless
`subscriptionId` and `subscriptionSocket` are set and the socket's
`readyState` is `OPEN`; in that case it sends the `eth_unsubscribe`
message and resolves on its response. -/
def cleanup (s : SubRecord) (openSockets : List Nat) : CleanupResult :=
  let s1 := unregisterIfPresent s
  match s1.subscriptionId with
  | none => ⟨s1, [], CleanupKind.never⟩
  | some subId =>
    match s1.subscriptionSocket with
    | none => ⟨s1, [], CleanupKind.never⟩
    | some sock =>
      if sock ∈ openSockets then
        ⟨s1, [Out.msg sock (MsgBody.unsubscribeCall subId)], CleanupKind.awaitResponse⟩
      else
        ⟨s1, [], CleanupKind.never⟩

/-- The source's `onResponse` handler for the `eth_subscribe` call: on an
error frame it rejects the awaited promise and invokes `onError`; on a
frame with a numeric `id` it resolves the awaited promise, stores
`response.result` into `subscriptionId`, and, when the consumer has
already unsubscribed (`!active`), runs `cleanup` immediately; otherwise
frames whose `method` is `eth_subscription` are delivered to `onData`
and all other frames are ignored. -/
def onResponse (s : SubRecord) (openSockets : List Nat) (r : RpcResponse) :
    SubRecord × List Out :=
  match r.error with
  | some e => ({ s with openPromise := rejectP s.openPromise e }, [Out.onError e])
  | none =>
    match r.id with
    | some _ =>
      let s1 := { s with openPromise := resolveP s.openPromise r,
                         subscriptionId := r.result }
      if s1.active then (s1, [])
      else
        let c := cleanup s1 openSockets
        (c.state, c.outs)
    | none =>
      if r.method = some "eth_subscription" then (s, [Out.onData r.params])
      else (s, [])

/-- The source's `onSocketCreated` callback: bind the record to the new
socket, reset `subscriptionId` to `undefined`, and send one
`eth_subscribe` open-call on that socket. -/
def onSocketCreated (s : SubRecord) (sock : Nat) : SubRecord × List Out :=
  ({ s with subscriptionSocket := some sock, subscriptionId := none },
   [Out.msg sock (MsgBody.subscribeCall s.params)])

/-- The close handler returned by `onSocketCreated`: clears the bound
socket and identifier only when the closing socket is still the
currently bound one (`subscriptionSocket === socket`). -/
def closeHandler (s : SubRecord) (sock : Nat) : SubRecord :=
  if s.subscriptionSocket = some sock then
    { s with subscriptionSocket := none, subscriptionId := none }
  else s

/-- The world: the closure state of the subscription plus the set of
currently open sockets (the environment's `readyState` information). -/
structure World where
  sub : SubRecord
  openSockets : List Nat
deriving DecidableEq

/-- Environment events driving the subscription state machine:
a socket becomes ready (the registry invokes `onSocketCreated` when the
record is still registered), a socket closes (its close handler fires),
an inbound frame is delivered to the subscription's `onResponse`
handler, the `subscribeSocket` promise settles (delivering the
unregister callback, or rejecting), or the consumer calls
`unsubscribe()`. -/
inductive Ev
  | created (sock : Nat)
  | closed (sock : Nat)
  | response (r : RpcResponse)
  | registryReady
  | registryFailed (e : RpcError)
  | unsub
deriving DecidableEq

/-- One event-handler run of the subscription state machine. -/
def step (w : World) (ev : Ev) : World × List Out :=
  match ev with
  | Ev.created sock =>
    let opens := sock :: w.openSockets
    if w.sub.registered then
      let p := onSocketCreated w.sub sock
      ({ sub := p.1, openSockets := opens }, p.2)
    else
      ({ w with openSockets := opens }, [])
  | Ev.closed sock =>
    ({ sub := closeHandler w.sub sock,
       openSockets := w.openSockets.filter (fun x => x ≠ sock) }, [])
  | Ev.response r =>
    let p := onResponse w.sub w.openSockets r
    ({ w with sub := p.1 }, p.2)
  | Ev.registryReady =>
    ({ w with sub := { w.sub with unsubscribeSocket := true } }, [])
  | Ev.registryFailed e =>
    ({ w with sub := { w.sub with openPromise := rejectP w.sub.openPromise e } },
     [Out.onError e])
  | Ev.unsub =>
    let c := cleanup { w.sub with active := false } w.openSockets
    ({ w with sub := c.state }, c.outs ++ [Out.unsubscribeReturn c.promise])

/-- Run a sequence of events, concatenating the outputs. -/
def run (w : World) : List Ev → World × List Out
  | [] => (w, [])
  | ev :: evs =>
    let p := step w ev
    let q := run p.1 evs
    (q.1, p.2 ++ q.2)

/-- The state of a freshly created subscription: `active = true`, no
socket bound, no identifier, unregister callback not yet delivered,
`onSocketCreated` registered, awaited promise pending. -/
def initWorld (params : String) : World :=
  { sub := { params := params, active := true, subscriptionSocket := none,
             subscriptionId := none, unsubscribeSocket := false,
             registered := true, openPromise := PState.pending },
    openSockets := [] }

/-- Does this output write an `eth_unsubscribe` teardown message? -/
def isTeardown : Out → Bool
  | Out.msg _ (MsgBody.unsubscribeCall _) => true
  | _ => false

/-- Number of teardown messages among a list of outputs. -/
def teardownCount (outs : List Out) : Nat := (outs.filter isTeardown).length

/-- Outcome of the `subscribe()` call itself, read off the awaited
promise: still waiting, returned the `{unsubscribe}` handle, or threw. -/
inductive SubscribeOutcome
  | waiting
  | handle
  | failed (e : RpcError)
deriving DecidableEq

/-- Outcome of `subscribe()` in a given world. -/
def subscribeOutcome (w : World) : SubscribeOutcome :=
  match w.sub.openPromise with
  | PState.pending => SubscribeOutcome.waiting
  | PState.resolved _ => SubscribeOutcome.handle
  | PState.rejected e => SubscribeOutcome.failed e

/-- The request body `{method, params}` built by the `request` facade. -/
structure ReqBody where
  method : String
  params : List String
deriving DecidableEq

/-- The `RpcRequestError({body, error, url})` thrown by `request`. -/
structure RpcRequestError where
  body : ReqBody
  error : RpcError
  url : String
deriving DecidableEq

/-- The `{error, result}` pair destructured from
`rpc.webSocketAsync`'s response. -/
structure AsyncResult where
  error : Option RpcError
  result : Option String
deriving DecidableEq

/-- The source's `request({method, params})` facade, as a function of the
`{error, result}` the RPC layer produced: when `error` is present it
throws `RpcRequestError` carrying the original body, the error and the
endpoint URL; otherwise it returns `result`. -/
def request (method : String) (params : List String) (url : String)
    (resp : AsyncResult) : Except RpcRequestError (Option String) :=
  let body : ReqBody := ⟨method, params⟩
  match resp.error with
  | some e => Except.error ⟨body, e, url⟩
  | none => Except.ok resp.result

/-! ### Helper lemmas -/

/-- Unregistering the listener does not change `subscriptionId`. -/
@[simp]
theorem unregisterIfPresent_subscriptionId (s : SubRecord) :
    (unregisterIfPresent s).subscriptionId = s.subscriptionId := by
  unfold unregisterIfPresent
  split <;> rfl

/-- Unregistering the listener does not change `subscriptionSocket`. -/
@[simp]
theorem unregisterIfPresent_subscriptionSocket (s : SubRecord) :
    (unregisterIfPresent s).subscriptionSocket = s.subscriptionSocket := by
  unfold unregisterIfPresent
  split <;> rfl

/-- Unregistering the listener does not change `openPromise`. -/
@[simp]
theorem unregisterIfPresent_openPromise (s : SubRecord) :
    (unregisterIfPresent s).openPromise = s.openPromise := by
  unfold unregisterIfPresent
  split <;> rfl

/-- Unregistering the listener does not change `active`. -/
@[simp]
theorem unregisterIfPresent_active (s : SubRecord) :
    (unregisterIfPresent s).active = s.active := by
  unfold unregisterIfPresent
  split <;> rfl

/-- The messages emitted by one `cleanup` run are either nothing or
exactly one teardown message, on the bound socket, with the stored
identifier, and only when that socket is open. -/
theorem cleanup_outs_shape (s : SubRecord) (ops : List Nat) :
    (cleanup s ops).outs = [] ∨
    ∃ sock subId, s.subscriptionSocket = some sock ∧ s.subscriptionId = some subId ∧
      sock ∈ ops ∧
      (cleanup s ops).outs = [Out.msg sock (MsgBody.unsubscribeCall subId)] := by
  unfold cleanup
  rcases hid : s.subscriptionId with _ | subId
  · left
    simp [hid]
  · rcases hsock : s.subscriptionSocket with _ | sock
    · left
      simp [hid, hsock]
    · by_cases hmem : sock ∈ ops
      · right
        exact ⟨sock, subId, rfl, rfl, hmem, by simp [hid, hsock, hmem]⟩
      · left
        simp [hid, hsock, hmem]

/-- A `cleanup` run changes none of `subscriptionId`,
`subscriptionSocket`, `openPromise`, `active`. -/
theorem cleanup_state_fields (s : SubRecord) (ops : List Nat) :
    (cleanup s ops).state.subscriptionId = s.subscriptionId ∧
    (cleanup s ops).state.subscriptionSocket = s.subscriptionSocket ∧
    (cleanup s ops).state.openPromise = s.openPromise ∧
    (cleanup s ops).state.active = s.active := by
  unfold cleanup
  rcases hid : s.subscriptionId with _ | subId
  · simp [hid]
  · rcases hsock : s.subscriptionSocket with _ | sock
    · simp [hid, hsock]
    · by_cases hmem : sock ∈ ops <;> simp [hid, hsock, hmem]

/-- There is no `onData` output in a `cleanup` run. -/
theorem cleanup_no_onData (s : SubRecord) (ops : List Nat) (p : Option String) :
    Out.onData p ∉ (cleanup s ops).outs := by
  rcases cleanup_outs_shape s ops with h | ⟨sock, subId, _, _, _, h⟩ <;> simp [h]

/-- Teardown count of a `cleanup` run is at most one. -/
theorem cleanup_teardownCount_le_one (s : SubRecord) (ops : List Nat) :
    teardownCount (cleanup s ops).outs ≤ 1 := by
  rcases cleanup_outs_shape s ops with h | ⟨sock, subId, _, _, _, h⟩ <;>
    simp [h, teardownCount, isTeardown]

/-! ### Concrete fixtures used by counterexamples and witnesses -/

/-- An open-call response `{id: 1, result: "0xaaa"}`. -/
def rOpen1 : RpcResponse := { id := some 1, result := some "0xaaa" }

/-- A second open-call response `{id: 2, result: "0xbbb"}` (the open-call
re-sent after a socket recreation). -/
def rOpen2 : RpcResponse := { id := some 2, result := some "0xbbb" }

/-- A push notification frame
`{method: "eth_subscription", params: "data1"}`. -/
def rNotif : RpcResponse := { method := some "eth_subscription", params := some "data1" }

/-- The server error `{code: -32000, message: "reverted"}`. -/
def errReverted : RpcError := ⟨-32000, "reverted"⟩

/-! ### Claim C1 -/

/-- Trace refuting C1: subscribe, socket ready, registry callback
delivered, open-call response, then `unsubscribe()` called twice. -/
def c1Trace : List Ev :=
  [Ev.created 0, Ev.registryReady, Ev.response rOpen1, Ev.unsub, Ev.unsub]

/-- C1 counterexample: the claim "at most one teardown message is sent
per subscription; a second `unsubscribe()` sends no second teardown" is
false on the code.  On the trace subscribe / socket created / open-call
response / `unsubscribe()` / `unsubscribe()`, two `eth_unsubscribe`
messages are sent, because `cleanup` never clears `subscriptionId`, so
the second call passes all three guards again. -/
theorem c1_counterexample :
    ¬ teardownCount (run (initWorld "newHeads") c1Trace).2 ≤ 1 := by decide

/-- C1 amended: each single `unsubscribe()` call or response-handler run
sends at most one teardown message — the bound is per `cleanup`
execution, not per subscription, so repeated `unsubscribe()` calls while
the identifier and an open bound socket remain each send one teardown. -/
theorem c1_amended_per_call (w : World) (ev : Ev) :
    teardownCount (step w ev).2 ≤ 1 := by
  have honresp : ∀ (s : SubRecord) (ops : List Nat) (r : RpcResponse),
      teardownCount (onResponse s ops r).2 ≤ 1 := by
    intro s ops r
    rcases herr : r.error with _ | e
    · rcases hid : r.id with _ | n
      · by_cases hm : r.method = some "eth_subscription" <;>
          simp [onResponse, herr, hid, hm, teardownCount, isTeardown]
      · by_cases hact : s.active = true
        · simp [onResponse, herr, hid, hact, teardownCount, isTeardown]
        · have h := cleanup_teardownCount_le_one
            { s with openPromise := resolveP s.openPromise r,
                     subscriptionId := r.result } ops
          simpa [onResponse, herr, hid, hact, teardownCount] using h
    · simp [onResponse, herr, teardownCount, isTeardown]
  cases ev with
  | created sock =>
    by_cases hreg : w.sub.registered = true <;>
      simp [step, hreg, onSocketCreated, teardownCount, isTeardown]
  | closed sock => simp [step, teardownCount]
  | response r => simpa [step] using honresp w.sub w.openSockets r
  | registryReady => simp [step, teardownCount]
  | registryFailed e => simp [step, teardownCount, isTeardown]
  | unsub =>
    have h := cleanup_teardownCount_le_one { w.sub with active := false } w.openSockets
    simpa [step, teardownCount, isTeardown, List.filter_append] using h

/-! ### Claim C2 -/

/-- C2: when `unsubscribe()` is called while no identifier is present,
no teardown message is sent at that moment; and when an open-call
response later supplies an identifier while the consumer has already
unsubscribed, the handler immediately sends exactly one teardown message
carrying that identifier on the bound (open) socket. -/
theorem c2_deferred_teardown (w : World) (r : RpcResponse) (n : Nat) (subId : String)
    (sock : Nat) :
    (w.sub.subscriptionId = none → teardownCount (step w Ev.unsub).2 = 0) ∧
    (w.sub.active = false → r.error = none → r.id = some n → r.result = some subId →
      w.sub.subscriptionSocket = some sock → sock ∈ w.openSockets →
      (step w (Ev.response r)).2 = [Out.msg sock (MsgBody.unsubscribeCall subId)]) := by
  constructor
  · intro hid
    unfold step cleanup
    simp [hid, teardownCount, isTeardown]
  · intro hact herr hid hres hsock hmem
    unfold step onResponse cleanup
    simp [hact, herr, hid, hres, hsock, hmem]

/-- World in which the record has no identifier (open-call response for
the second socket still pending): subscribe, socket 0 ready, open-call
response, then socket 1 created. -/
def c2WorldA : World :=
  (run (initWorld "newHeads")
    [Ev.created 0, Ev.registryReady, Ev.response rOpen1, Ev.created 1]).1

/-- World `c2WorldA` after the consumer has called `unsubscribe()`. -/
def c2WorldB : World :=
  (run (initWorld "newHeads")
    [Ev.created 0, Ev.registryReady, Ev.response rOpen1, Ev.created 1, Ev.unsub]).1

/-- C2 witness: with no identifier present, `unsubscribe()` sends
nothing; when the delayed open-call response `{id: 2, result: "0xbbb"}`
then arrives, exactly the teardown for `"0xbbb"` is sent on socket 1. -/
theorem c2_witness :
    teardownCount (step c2WorldA Ev.unsub).2 = 0 ∧
    (step c2WorldB (Ev.response rOpen2)).2
      = [Out.msg 1 (MsgBody.unsubscribeCall "0xbbb")] :=
  ⟨(c2_deferred_teardown c2WorldA rOpen2 2 "0xbbb" 1).1 (by decide),
   (c2_deferred_teardown c2WorldB rOpen2 2 "0xbbb" 1).2 (by decide) (by decide)
     (by decide) (by decide) (by decide) (by decide)⟩

/-! ### Claim C3 -/

/-- C3 counterexample: the claim "a failed subscription open-call still
leaves the consumer with a handle whose `unsubscribe()` is a safe no-op"
is false on the code.  When the open-call response carries an error, the
handler rejects the promise awaited inside `subscribe()`, so
`subscribe()` throws the error instead of returning a handle. -/
theorem c3_counterexample :
    subscribeOutcome (run (initWorld "newHeads")
        [Ev.created 0, Ev.response { error := some errReverted }]).1
      = SubscribeOutcome.failed errReverted ∧
    subscribeOutcome (run (initWorld "newHeads")
        [Ev.created 0, Ev.response { error := some errReverted }]).1
      ≠ SubscribeOutcome.handle := by
  constructor <;> decide

/-- C3 amended: when the open-call fails — the response carries an error
or the socket registration fails — the error is delivered to the
consumer's `onError`, and `subscribe()` rejects with that error instead
of returning a handle. -/
theorem c3_amended_error_delivery (w : World) (r : RpcResponse) (e : RpcError)
    (hp : w.sub.openPromise = PState.pending) :
    (r.error = some e →
      subscribeOutcome (step w (Ev.response r)).1 = SubscribeOutcome.failed e ∧
      Out.onError e ∈ (step w (Ev.response r)).2) ∧
    (subscribeOutcome (step w (Ev.registryFailed e)).1 = SubscribeOutcome.failed e ∧
      Out.onError e ∈ (step w (Ev.registryFailed e)).2) := by
  constructor
  · intro herr
    constructor
    · simp [step, onResponse, herr, subscribeOutcome, rejectP, hp]
    · simp [step, onResponse, herr]
  · constructor
    · simp [step, subscribeOutcome, rejectP, hp]
    · simp [step]

/-- C3 witness: at the initial world with a `reverted` error response,
the error reaches `onError` and `subscribe()` fails with it. -/
theorem c3_witness :
    (subscribeOutcome (step (initWorld "newHeads")
        (Ev.response { error := some errReverted })).1
      = SubscribeOutcome.failed errReverted ∧
     Out.onError errReverted ∈ (step (initWorld "newHeads")
        (Ev.response { error := some errReverted })).2) ∧
    (subscribeOutcome (step (initWorld "newHeads")
        (Ev.registryFailed errReverted)).1
      = SubscribeOutcome.failed errReverted ∧
     Out.onError errReverted ∈ (step (initWorld "newHeads")
        (Ev.registryFailed errReverted)).2) :=
  ⟨(c3_amended_error_delivery (initWorld "newHeads")
      { error := some errReverted } errReverted (by decide)).1 (by decide),
   (c3_amended_error_delivery (initWorld "newHeads")
      { error := some errReverted } errReverted (by decide)).2⟩

/-! ### Claim C4 -/

/-- World reached by: subscribe, socket 0 ready, registry callback
delivered, open-call response, then socket 1 created (reconnection) —
the record is bound to socket 1 with the identifier reset to
`undefined`. -/
def c4World : World :=
  (run (initWorld "newHeads")
    [Ev.created 0, Ev.registryReady, Ev.response rOpen1, Ev.created 1]).1

/-- C4 (code bug): at `c4World` no identifier is present, so no teardown
message is needed; the claim says `unsubscribe()` then resolves
immediately, but in the code the promise executor inside `cleanup`
returns without ever calling `resolve` (for each of the three guards),
so the promise returned by `unsubscribe()` never settles. -/
theorem c4_unsubscribe_never_resolves :
    teardownCount (step c4World Ev.unsub).2 = 0 ∧
    (step c4World Ev.unsub).2 = [Out.unsubscribeReturn CleanupKind.never] := by
  constructor <;> decide

/-! ### Claim C5 -/

/-- Events up to and including the early `unsubscribe()`: subscribe,
socket 0 ready, open-call response, socket 1 created (so the second
open-call response is still pending), then `unsubscribe()`. -/
def c5Trace : List Ev :=
  [Ev.created 0, Ev.registryReady, Ev.response rOpen1, Ev.created 1, Ev.unsub]

/-- C5 counterexample: the claim "after `unsubscribe()` was called
before the open-call response arrived, no subscription data from any
subsequent frame is ever delivered to `onData`" is false on the code.
After `unsubscribe()` (with the re-sent open-call response still
pending), the delayed open-call response and then an `eth_subscription`
frame arrive; the frame's payload is delivered to `onData`, because the
data path never consults the `active` flag. -/
theorem c5_counterexample :
    Out.onData (some "data1") ∈
      (run (run (initWorld "newHeads") c5Trace).1
        [Ev.response rOpen2, Ev.response rNotif]).2 := by decide

/-- C5 amended: after `unsubscribe()`, the open-call response itself is
never delivered to `onData` (a frame with a numeric id takes the
resolve branch and returns first), but `eth_subscription` frames are
still delivered to `onData` regardless of the `active` flag. -/
theorem c5_amended_data_paths (w : World) (r : RpcResponse) (n : Nat) (p : Option String) :
    (r.error = none → r.id = some n → Out.onData p ∉ (step w (Ev.response r)).2) ∧
    (r.error = none → r.id = none → r.method = some "eth_subscription" →
      (step w (Ev.response r)).2 = [Out.onData r.params]) := by
  constructor
  · intro herr hid
    by_cases hact : w.sub.active = true
    · simp [step, onResponse, herr, hid, hact]
    · have h := cleanup_no_onData
        { w.sub with openPromise := resolveP w.sub.openPromise r,
                     subscriptionId := r.result } w.openSockets p
      simpa [step, onResponse, herr, hid, hact] using h
  · intro herr hid hm
    simp [step, onResponse, herr, hid, hm]

/-- C5 witness: a numeric-id frame yields no `onData` output, and an
`eth_subscription` frame yields exactly the `onData` output, in the
post-`unsubscribe()` world of the counterexample trace. -/
theorem c5_witness :
    Out.onData (some "data1")
      ∉ (step (run (initWorld "newHeads") c5Trace).1 (Ev.response rOpen2)).2 ∧
    (step (run (initWorld "newHeads") c5Trace).1 (Ev.response rNotif)).2
      = [Out.onData (some "data1")] :=
  ⟨(c5_amended_data_paths (run (initWorld "newHeads") c5Trace).1 rOpen2 2
      (some "data1")).1 (by decide) (by decide),
   by
    have h := (c5_amended_data_paths (run (initWorld "newHeads") c5Trace).1 rNotif 0
      (some "data1")).2 (by decide) (by decide) (by decide)
    simpa [rNotif] using h⟩

/-! ### Claim C6 -/

/-- C6: on every socket (re)creation event for a still-registered,
active subscription, the record is bound to the new socket handle, the
subscription identifier is reset to `undefined`, and exactly one
`eth_subscribe` open-call (with the consumer's params) is sent on the
new socket. -/
theorem c6_socket_recreation (w : World) (sock : Nat)
    (hreg : w.sub.registered = true) (_hact : w.sub.active = true) :
    (step w (Ev.created sock)).1.sub.subscriptionSocket = some sock ∧
    (step w (Ev.created sock)).1.sub.subscriptionId = none ∧
    (step w (Ev.created sock)).2
      = [Out.msg sock (MsgBody.subscribeCall w.sub.params)] := by
  refine ⟨?_, ?_, ?_⟩ <;> simp [step, hreg, onSocketCreated]

/-- C6 witness: the first socket-creation event on a fresh subscription
binds socket 0, leaves the identifier unset, and sends exactly one
open-call on socket 0. -/
theorem c6_witness :
    (step (initWorld "newHeads") (Ev.created 0)).1.sub.subscriptionSocket = some 0 ∧
    (step (initWorld "newHeads") (Ev.created 0)).1.sub.subscriptionId = none ∧
    (step (initWorld "newHeads") (Ev.created 0)).2
      = [Out.msg 0 (MsgBody.subscribeCall "newHeads")] := by
  have h := c6_socket_recreation (initWorld "newHeads") 0 (by decide) (by decide)
  simpa [initWorld] using h

/-! ### Claim C7 -/

/-- C7: `request(method, params)` resolves with the response's `result`
when the JSON-RPC response carries no error, and throws an
`RpcRequestError` carrying the original `{method, params}` body, the
endpoint URL, and the server's error payload when it does. -/
theorem c7_request_behaviour (method : String) (params : List String) (url : String)
    (resp : AsyncResult) :
    (resp.error = none → request method params url resp = Except.ok resp.result) ∧
    (∀ e : RpcError, resp.error = some e →
      request method params url resp = Except.error ⟨⟨method, params⟩, e, url⟩) := by
  constructor
  · intro h
    simp [request, h]
  · intro e h
    simp [request, h]

/-- C7 witness: `eth_blockNumber` against a reply `{id: 1, result:
"0x10"}` resolves with `"0x10"`; `eth_call` against a reply carrying the
`reverted` error throws an `RpcRequestError` with the original body, the
endpoint, and that error. -/
theorem c7_witness :
    request "eth_blockNumber" [] "wss://localhost" ⟨none, some "0x10"⟩
      = Except.ok (some "0x10") ∧
    request "eth_call" ["0xdeadbeef"] "wss://localhost" ⟨some errReverted, none⟩
      = Except.error ⟨⟨"eth_call", ["0xdeadbeef"]⟩, errReverted, "wss://localhost"⟩ :=
  ⟨(c7_request_behaviour "eth_blockNumber" [] "wss://localhost"
      ⟨none, some "0x10"⟩).1 rfl,
   (c7_request_behaviour "eth_call" ["0xdeadbeef"] "wss://localhost"
      ⟨some errReverted, none⟩).2 errReverted rfl⟩

/-! ### Claim C8 -/

/-- A teardown message in a `cleanup` run names the bound socket, and
that socket is open. -/
theorem cleanup_teardown_mem (s : SubRecord) (ops : List Nat) (sock : Nat)
    (subId : String)
    (h : Out.msg sock (MsgBody.unsubscribeCall subId) ∈ (cleanup s ops).outs) :
    sock ∈ ops ∧ s.subscriptionSocket = some sock := by
  rcases cleanup_outs_shape s ops with hsh | ⟨sock2, subId2, hs, hi, hm, hsh⟩
  · simp [hsh] at h
  · rw [hsh] at h
    simp at h
    obtain ⟨h1, h2⟩ := h
    subst h1
    exact ⟨hm, hs⟩

/-- A nonzero teardown count exhibits a teardown message in the list. -/
theorem exists_teardown_of_count_ne_zero (l : List Out) (h : teardownCount l ≠ 0) :
    ∃ sock subId, Out.msg sock (MsgBody.unsubscribeCall subId) ∈ l := by
  unfold teardownCount at h
  have hne : l.filter isTeardown ≠ [] := by
    intro hnil
    rw [hnil] at h
    exact h rfl
  obtain ⟨x, hx⟩ := List.exists_mem_of_ne_nil _ hne
  have hx2 := List.mem_filter.mp hx
  cases x with
  | msg sock body =>
    cases body with
    | subscribeCall params => simp [isTeardown] at hx2
    | unsubscribeCall subId => exact ⟨sock, subId, hx2.1⟩
  | onData p => simp [isTeardown] at hx2
  | onError e => simp [isTeardown] at hx2
  | unsubscribeReturn k => simp [isTeardown] at hx2

/-- Every teardown message emitted by a `step` names the currently bound
socket and that socket is open in the pre-state. -/
theorem step_teardown_mem (w : World) (ev : Ev) (sock : Nat) (subId : String)
    (h : Out.msg sock (MsgBody.unsubscribeCall subId) ∈ (step w ev).2) :
    sock ∈ w.openSockets ∧ w.sub.subscriptionSocket = some sock := by
  cases ev with
  | created sock2 =>
    by_cases hreg : w.sub.registered = true <;>
      simp [step, hreg, onSocketCreated] at h
  | closed sock2 => simp [step] at h
  | response r =>
    rcases herr : r.error with _ | e
    · rcases hid : r.id with _ | n
      · by_cases hm : r.method = some "eth_subscription" <;>
          simp [step, onResponse, herr, hid, hm] at h
      · by_cases hact : w.sub.active = true
        · simp [step, onResponse, herr, hid, hact] at h
        · have h2 : Out.msg sock (MsgBody.unsubscribeCall subId) ∈
              (cleanup { w.sub with openPromise := resolveP w.sub.openPromise r,
                                    subscriptionId := r.result } w.openSockets).outs := by
            simpa [step, onResponse, herr, hid, hact] using h
          have h3 := cleanup_teardown_mem _ _ sock subId h2
          simpa using h3
    · simp [step, onResponse, herr] at h
  | registryReady => simp [step] at h
  | registryFailed e => simp [step] at h
  | unsub =>
    have h2 : Out.msg sock (MsgBody.unsubscribeCall subId) ∈
        (cleanup { w.sub with active := false } w.openSockets).outs := by
      simpa [step] using h
    have h3 := cleanup_teardown_mem _ _ sock subId h2
    simpa using h3

/-- C8: a teardown message is only ever sent on a socket that is open;
and when the bound socket is not open, the step sends no teardown at
all (the record is abandoned without any send). -/
theorem c8_teardown_only_on_open (w : World) (ev : Ev) (sock : Nat) (subId : String) :
    (Out.msg sock (MsgBody.unsubscribeCall subId) ∈ (step w ev).2 →
      sock ∈ w.openSockets) ∧
    (∀ s0 : Nat, w.sub.subscriptionSocket = some s0 → s0 ∉ w.openSockets →
      teardownCount (step w ev).2 = 0) := by
  constructor
  · intro h
    exact (step_teardown_mem w ev sock subId h).1
  · intro s0 hs hn
    by_contra hne
    obtain ⟨sock2, subId2, hmem⟩ := exists_teardown_of_count_ne_zero _ hne
    obtain ⟨hopen, hbound⟩ := step_teardown_mem w ev sock2 subId2 hmem
    rw [hs] at hbound
    have heq := Option.some.inj hbound
    subst heq
    exact hn hopen

/-- World after subscribe, socket 0 ready, registry callback delivered,
and the open-call response: identifier `"0xaaa"` bound to the open
socket 0. -/
def c8WorldOpen : World :=
  (run (initWorld "newHeads") [Ev.created 0, Ev.registryReady, Ev.response rOpen1]).1

/-- A record bound to socket 0 holding identifier `"0xaaa"` while socket
0 is not open (its `readyState` left `OPEN`). -/
def c8WorldStale : World :=
  { sub := { params := "newHeads", active := true, subscriptionSocket := some 0,
             subscriptionId := some "0xaaa", unsubscribeSocket := true,
             registered := true, openPromise := PState.resolved rOpen1 },
    openSockets := [] }

/-- C8 witness: the teardown sent by `unsubscribe()` at `c8WorldOpen`
names an open socket, and at `c8WorldStale` (bound socket not open) no
teardown is sent. -/
theorem c8_witness :
    (0 : Nat) ∈ c8WorldOpen.openSockets ∧
    teardownCount (step c8WorldStale Ev.unsub).2 = 0 :=
  ⟨(c8_teardown_only_on_open c8WorldOpen Ev.unsub 0 "0xaaa").1 (by decide),
   (c8_teardown_only_on_open c8WorldStale Ev.unsub 0 "0xaaa").2 0 (by decide)
     (by decide)⟩

/-! ### Claim C9 -/

/-- C9: a close event for a socket other than the currently bound one
leaves the record's bound socket and identifier unchanged; only a close
of the currently bound socket clears them. -/
theorem c9_stale_close_ignored (w : World) (sock : Nat) :
    (w.sub.subscriptionSocket ≠ some sock →
      (step w (Ev.closed sock)).1.sub.subscriptionSocket = w.sub.subscriptionSocket ∧
      (step w (Ev.closed sock)).1.sub.subscriptionId = w.sub.subscriptionId) ∧
    (w.sub.subscriptionSocket = some sock →
      (step w (Ev.closed sock)).1.sub.subscriptionSocket = none ∧
      (step w (Ev.closed sock)).1.sub.subscriptionId = none) := by
  constructor
  · intro hne
    constructor <;> simp [step, closeHandler, hne]
  · intro heq
    constructor <;> simp [step, closeHandler, heq]

/-- World after the open-call response: bound to socket 0 with
identifier `"0xaaa"`. -/
def c9World : World :=
  (run (initWorld "newHeads") [Ev.created 0, Ev.registryReady, Ev.response rOpen1]).1

/-- C9 witness: a close of the unrelated socket 5 leaves binding and
identifier of `c9World` unchanged; a close of the bound socket 0 clears
both. -/
theorem c9_witness :
    ((step c9World (Ev.closed 5)).1.sub.subscriptionSocket
        = c9World.sub.subscriptionSocket ∧
     (step c9World (Ev.closed 5)).1.sub.subscriptionId
        = c9World.sub.subscriptionId) ∧
    ((step c9World (Ev.closed 0)).1.sub.subscriptionSocket = none ∧
     (step c9World (Ev.closed 0)).1.sub.subscriptionId = none) :=
  ⟨(c9_stale_close_ignored c9World 5).1 (by decide),
   (c9_stale_close_ignored c9World 0).2 (by decide)⟩

/-! ### Claim C10 -/

/-- C10: the promise awaited by `subscribe()` moves from pending to
resolved only through a response event whose frame carries no error and
a numeric id, and in the post-state the record's subscription identifier
equals that response's `result`. -/
theorem c10_resolution (w : World) (ev : Ev) (r : RpcResponse)
    (hp : w.sub.openPromise = PState.pending)
    (hres : (step w ev).1.sub.openPromise = PState.resolved r) :
    ev = Ev.response r ∧ r.error = none ∧ (∃ n, r.id = some n) ∧
    (step w ev).1.sub.subscriptionId = r.result := by
  cases ev with
  | created sock =>
    by_cases hreg : w.sub.registered = true <;>
      simp [step, hreg, onSocketCreated, hp] at hres
  | closed sock =>
    by_cases hc : w.sub.subscriptionSocket = some sock <;>
      simp [step, closeHandler, hc, hp] at hres
  | response r2 =>
    rcases herr : r2.error with _ | e
    · rcases hid : r2.id with _ | n
      · by_cases hm : r2.method = some "eth_subscription" <;>
          simp [step, onResponse, herr, hid, hm, hp] at hres
      · by_cases hact : w.sub.active = true
        · have hpost : (step w (Ev.response r2)).1.sub
              = { w.sub with openPromise := resolveP w.sub.openPromise r2,
                             subscriptionId := r2.result } := by
            simp [step, onResponse, herr, hid, hact]
          rw [hpost] at hres
          simp [resolveP, hp] at hres
          subst hres
          exact ⟨rfl, herr, ⟨n, hid⟩, by simp [hpost]⟩
        · have hpost : (step w (Ev.response r2)).1.sub
              = (cleanup { w.sub with openPromise := resolveP w.sub.openPromise r2,
                                      subscriptionId := r2.result } w.openSockets).state := by
            simp [step, onResponse, herr, hid, hact]
          have hop := (cleanup_state_fields
            { w.sub with openPromise := resolveP w.sub.openPromise r2,
                         subscriptionId := r2.result } w.openSockets).2.2.1
          have hid2 := (cleanup_state_fields
            { w.sub with openPromise := resolveP w.sub.openPromise r2,
                         subscriptionId := r2.result } w.openSockets).1
          rw [hpost, hop] at hres
          simp [resolveP, hp] at hres
          subst hres
          refine ⟨rfl, herr, ⟨n, hid⟩, ?_⟩
          rw [hpost, hid2]
    · simp [step, onResponse, herr, hp, rejectP] at hres
  | registryReady => simp [step, hp] at hres
  | registryFailed e => simp [step, hp, rejectP] at hres
  | unsub =>
    have h1 : (step w Ev.unsub).1.sub.openPromise = w.sub.openPromise := by
      have h2 := (cleanup_state_fields { w.sub with active := false } w.openSockets).2.2.1
      simpa [step] using h2
    rw [h1, hp] at hres
    simp at hres

/-- World after subscribe and socket 0 ready: the awaited promise is
still pending. -/
def c10World : World :=
  (run (initWorld "newHeads") [Ev.created 0, Ev.registryReady]).1

/-- C10 witness: at `c10World` (promise pending), the event resolving the
promise with `{id: 1, result: "0xaaa"}` is a numeric-id, error-free
response, and it leaves the identifier equal to `"0xaaa"`. -/
theorem c10_witness :
    Ev.response rOpen1 = Ev.response rOpen1 ∧ rOpen1.error = none ∧
    (∃ n, rOpen1.id = some n) ∧
    (step c10World (Ev.response rOpen1)).1.sub.subscriptionId = rOpen1.result :=
  c10_resolution c10World (Ev.response rOpen1) rOpen1 (by decide) (by decide)

end WebSocketTransport
